import Mathlib

/-
Verification of the GitHub repository-access client
(src/github-repo-access-plugin/github_client.py) against its
natural-language specification.

The Python module is a thin facade over the PyGithub library.  We embed it
shallowly: each method of `GitHubClient` becomes a Lean function over an
explicit model of the remote library objects the code touches.  Python
exceptions become the `Except PyError` monad; `hasattr`-style dynamic
attribute probing is modelled with `Option` fields (outer `none` = attribute
absent); Python truthiness of optional strings is `pyTruthy`.
-/

/-- Python exceptions distinguishable by the client code.  The code's
`except GithubException` clause catches exactly `githubException`; transport
level failures of the underlying HTTP stack (e.g. connection errors raised by
the requests library) are not `GithubException` instances and are modelled by
`networkError`.  `exception` is a plain `Exception(...)` raised by the client
itself. -/
inductive PyError where
  | githubException (kind : String) (msg : String)
  | networkError (msg : String)
  | valueError (msg : String)
  | unicodeDecodeError (msg : String)
  | exception (msg : String)
deriving DecidableEq, Repr

/-- Python truthiness of an optional string: `None` and `""` are falsy. -/
def pyTruthy : Option String → Bool
  | none => false
  | some s => s ≠ ""

/-- Whether a byte is a UTF-8 continuation byte (0x80..0xBF). -/
def utf8Cont (b : Nat) : Bool := 0x80 ≤ b && b ≤ 0xBF

/-- Strict UTF-8 decoding of a byte sequence into code points, mirroring
Python's `bytes.decode("utf-8")`: rejects overlong encodings, surrogates and
code points above 0x10FFFF; returns `none` exactly when Python would raise
`UnicodeDecodeError`. -/
def utf8DecodeCps : List Nat → Option (List Nat)
  | [] => some []
  | b :: rest =>
    if b < 0x80 then
      (utf8DecodeCps rest).map (b :: ·)
    else if b < 0xC2 then
      none
    else if b ≤ 0xDF then
      match rest with
      | b1 :: r =>
        if utf8Cont b1 then
          (utf8DecodeCps r).map ((b % 0x20 * 0x40 + b1 % 0x40) :: ·)
        else none
      | [] => none
    else if b ≤ 0xEF then
      match rest with
      | b1 :: b2 :: r =>
        if utf8Cont b1 && utf8Cont b2
            && (b ≠ 0xE0 || 0xA0 ≤ b1)
            && (b ≠ 0xED || b1 ≤ 0x9F) then
          (utf8DecodeCps r).map
            ((b % 0x10 * 0x1000 + b1 % 0x40 * 0x40 + b2 % 0x40) :: ·)
        else none
      | _ => none
    else if b ≤ 0xF4 then
      match rest with
      | b1 :: b2 :: b3 :: r =>
        if utf8Cont b1 && utf8Cont b2 && utf8Cont b3
            && (b ≠ 0xF0 || 0x90 ≤ b1)
            && (b ≠ 0xF4 || b1 ≤ 0x8F) then
          (utf8DecodeCps r).map
            ((b % 0x08 * 0x40000 + b1 % 0x40 * 0x1000
              + b2 % 0x40 * 0x40 + b3 % 0x40) :: ·)
        else none
      | _ => none
    else none

/-- UTF-8 decoding to a Lean string (code points are valid by construction of
`utf8DecodeCps`, so `Char.ofNat` is faithful). -/
def utf8Decode (bs : List Nat) : Option String :=
  (utf8DecodeCps bs).map (fun cps => String.mk (cps.map Char.ofNat))

/-- Value of a character in the standard base64 alphabet. -/
def b64Val (c : Char) : Option Nat :=
  (("ABCDEFGHIJKLMNOPQRSTUVWXYZabcdefghijklmnopqrstuvwxyz0123456789+/").toList).indexOf? c

/-- Decode base64 characters four at a time; `=` padding is accepted only at
the end.  Any malformed input yields `none`, standing for the
`binascii.Error` that `base64.b64decode` raises. -/
def b64DecodeChunks : List Char → Option (List Nat)
  | [] => some []
  | c0 :: c1 :: c2 :: c3 :: rest =>
    if c2 = '=' then
      if c3 = '=' ∧ rest = [] then
        match b64Val c0, b64Val c1 with
        | some v0, some v1 => some [v0 * 4 + v1 / 16]
        | _, _ => none
      else none
    else if c3 = '=' then
      if rest = [] then
        match b64Val c0, b64Val c1, b64Val c2 with
        | some v0, some v1, some v2 =>
          some [v0 * 4 + v1 / 16, v1 % 16 * 16 + v2 / 4]
        | _, _, _ => none
      else none
    else
      match b64Val c0, b64Val c1, b64Val c2, b64Val c3 with
      | some v0, some v1, some v2, some v3 =>
        (b64DecodeChunks rest).map
          ([v0 * 4 + v1 / 16, v1 % 16 * 16 + v2 / 4, v2 % 4 * 64 + v3] ++ ·)
      | _, _, _, _ => none
  | _ => none

/-- Model of Python's `base64.b64decode` with default `validate=False`:
characters outside the alphabet (and padding) are discarded first, then the
remainder is decoded; `none` models a raised `binascii.Error`. -/
def b64decode (s : String) : Option (List Nat) :=
  b64DecodeChunks (s.toList.filter (fun c => (b64Val c).isSome || c = '='))

example : b64decode "aGk=" = some [104, 105] := by decide
example : b64decode "/w==" = some [255] := by decide
example : utf8Decode [104, 105] = some "hi" := by decide
example : utf8Decode [255] = none := by decide

/-- Binding a successful `Except` computation just applies the
continuation. -/
theorem exceptOkBind {α β ε : Type} (a : α) (f : α → Except ε β) :
    (Except.ok a >>= f : Except ε β) = f a := rfl

/-- Binding a failed `Except` computation keeps the failure. -/
theorem exceptErrorBind {α β ε : Type} (e : ε) (f : α → Except ε β) :
    (Except.error e >>= f : Except ε β) = Except.error e := rfl

/-- Naive datetime as PyGithub hands it to the client (microseconds are zero
for GitHub timestamps and omitted by `isoformat`). -/
structure Datetime where
  year : Nat
  month : Nat
  day : Nat
  hour : Nat
  minute : Nat
  second : Nat
deriving DecidableEq, Repr

/-- Zero-pad a number to two digits. -/
def pad2 (n : Nat) : String :=
  if n < 10 then "0" ++ toString n else toString n

/-- Zero-pad a number to four digits. -/
def pad4 (n : Nat) : String :=
  if n < 10 then "000" ++ toString n
  else if n < 100 then "00" ++ toString n
  else if n < 1000 then "0" ++ toString n
  else toString n

/-- Python's `datetime.isoformat()` for a whole-second naive datetime:
`YYYY-MM-DDTHH:MM:SS`. -/
def Datetime.isoformat (d : Datetime) : String :=
  pad4 d.year ++ "-" ++ pad2 d.month ++ "-" ++ pad2 d.day ++ "T"
    ++ pad2 d.hour ++ ":" ++ pad2 d.minute ++ ":" ++ pad2 d.second

/-- A content object returned by PyGithub's `get_contents`, restricted to the
attributes this client reads.  `type` is the raw GitHub content type
("file", "dir", "symlink", "submodule", ...).  Dynamically probed attributes
are `Option`-wrapped: the outer `none` means `hasattr` is false; for
`decoded_content` the inner `none` means the attribute is present but `None`.
`content`, when present, holds the base64 transport encoding of the bytes. -/
structure ContentFileObj where
  name : String
  path : String
  type : String
  size : Int
  decoded_content : Option (Option (List Nat))
  content : Option (Option String)
deriving DecidableEq, Repr

/-- Result of `repo.get_contents(path)`: a Python list for a directory, a
single content object for a file (the `isinstance(contents, list)` test). -/
inductive ContentsResult where
  | dir (items : List ContentFileObj)
  | file (f : ContentFileObj)
deriving DecidableEq, Repr

/-- Owner object; the client reads only `login`. -/
structure OwnerObj where
  login : String
deriving DecidableEq, Repr

/-- A PyGithub repository object, restricted to what the client uses:
`get_contents path ref` models `get_contents(path)` when `ref = none` and
`get_contents(path, ref=b)` when `ref = some b`; the rest are the metadata
attributes read by `get_repository_info` (the Python attribute `private` is
spelled `private_` because `private` is a Lean keyword; `topics = none`
models `hasattr(repo_obj, "topics")` being false). -/
structure RepoObj where
  get_contents : String → Option String → Except PyError ContentsResult
  name : String
  full_name : String
  description : Option String
  owner : OwnerObj
  private_ : Bool
  fork : Bool
  created_at : Option Datetime
  updated_at : Option Datetime
  pushed_at : Option Datetime
  size : Int
  stargazers_count : Int
  watchers_count : Int
  forks_count : Int
  open_issues_count : Int
  default_branch : String
  language : Option String
  topics : Option (List String)

/-- Core section of the rate-limit object. -/
structure RateCore where
  remaining : Int
deriving DecidableEq, Repr

/-- Rate-limit object returned by `github.get_rate_limit()`. -/
structure RateLimitObj where
  core : RateCore
deriving DecidableEq, Repr

/-- Repository object attached to a code-search result; `language` is probed
with `hasattr` (outer `none` = attribute absent) and nullable when present. -/
structure SearchRepoObj where
  full_name : String
  language : Option (Option String)
deriving DecidableEq, Repr

/-- A single code-search result object; `score` and `size` are probed with
`hasattr` (`none` = attribute absent). -/
structure SearchItemObj where
  name : String
  path : String
  repository : SearchRepoObj
  html_url : String
  score : Option Rat
  size : Option Int
deriving DecidableEq, Repr

/-- The `Github` connection object: each remote round trip the client makes,
as a function of the request it sends.  `search_code` yields the full lazy
match list the service reports (possibly far more than 50 entries). -/
structure GithubHandle where
  get_repo : String → Except PyError RepoObj
  search_code : String → List SearchItemObj
  get_rate_limit : Except PyError RateLimitObj

/-- The client under verification: `GitHubClient.__init__` stores the token
and a `Github` handle. -/
structure GitHubClient where
  token : Option String
  github : GithubHandle

/-- One entry of a directory listing (dict built at lines 40-51 of the
source). -/
structure DirectoryEntry where
  name : String
  path : String
  type : String
  size : Option Int
deriving DecidableEq, Repr

/-- Return shape of `get_repository_structure`. -/
structure DirectoryListing where
  path : String
  items : List DirectoryEntry
deriving DecidableEq, Repr

/-- Return shape of `get_file_content`. -/
structure FileContent where
  path : String
  content : String
  size : Int
  encoding : String
deriving DecidableEq, Repr

/-- Return shape of `get_repository_info` (dict keys as record fields;
`private_` spells the dict key "private"). -/
structure RepositoryInfo where
  name : String
  full_name : String
  description : Option String
  owner : String
  private_ : Bool
  fork : Bool
  created_at : Option String
  updated_at : Option String
  pushed_at : Option String
  size : Int
  stargazers_count : Int
  watchers_count : Int
  forks_count : Int
  open_issues_count : Int
  default_branch : String
  language : Option String
  topics : List String
deriving DecidableEq, Repr

/-- One formatted code-search result. -/
structure SearchResult where
  name : String
  path : String
  repository : String
  url : String
  score : Option Rat
  size : Option Int
  language : Option String
deriving DecidableEq, Repr

/-- Lines 40-51 of the source: build one listing entry from a content item.
The dict literal tags `"dir" if item.type == "dir" else "file"` with
`"size": None`, then a second step sets the size only when
`item.type == "file"`. -/
def mkItemData (item : ContentFileObj) : DirectoryEntry :=
  let item_data : DirectoryEntry :=
    { name := item.name
      path := item.path
      type := if item.type = "dir" then "dir" else "file"
      size := none }
  if item.type = "file" then { item_data with size := some item.size }
  else item_data

/-- Lines 18-70 of the source, `get_repository_structure`: resolve the repo
and the contents at `path` (both inside the `try`), shape a listing for a
directory or a single file, and translate a caught `GithubException e` into
`Exception(f"GitHub API error: \x7be\x7d")`.  Only `githubException` is
caught; every other failure propagates unchanged. -/
def get_repository_structure (client : GitHubClient) (owner repo : String)
    (path : String := "/") (branch : Option String := none) :
    Except PyError DirectoryListing :=
  let body : Except PyError DirectoryListing := do
    let repo_obj ← client.github.get_repo (owner ++ "/" ++ repo)
    let fetch :=
      if pyTruthy branch then repo_obj.get_contents path branch
      else repo_obj.get_contents path none
    let contents ← fetch
    match contents with
    | .dir items =>
      pure { path := path, items := items.map mkItemData }
    | .file c =>
      pure { path := path
             items := [{ name := c.name, path := c.path
                         type := "file", size := some c.size }] }
  match body with
  | .error (.githubException _ m) =>
    .error (.exception ("GitHub API error: " ++ m))
  | r => r

/-- Placeholder substituted at line 111 of the source when the base64
decode-and-interpret step fails. -/
def binaryPlaceholder (size : Int) : String :=
  "[Binary or unsupported encoding - size: " ++ toString size ++ " bytes]"

/-- Lines 94-111 of the source: produce `content_str` from the content
object.  With a `decoded_content` attribute, `decoded_bytes.decode("utf-8")`
runs UNGUARDED, so invalid UTF-8 raises (error position and byte are elided
from the modelled message); with only a `content` attribute, the
base64-then-UTF-8 step runs inside `try/except` and any failure (bad base64,
`None` content, invalid UTF-8) degrades to the placeholder; with neither
attribute, `content_str` keeps its initial value `""`. -/
def decodeContentStr (fc : ContentFileObj) : Except PyError String :=
  match fc.decoded_content with
  | some (some decoded_bytes) =>
    match utf8Decode decoded_bytes with
    | some s => .ok s
    | none => .error (.unicodeDecodeError "utf-8 codec cannot decode bytes")
  | some none => .ok ""
  | none =>
    match fc.content with
    | some (some c) =>
      .ok (match b64decode c >>= utf8Decode with
           | some s => s
           | none => binaryPlaceholder fc.size)
    | some none => .ok (binaryPlaceholder fc.size)
    | none => .ok ""

/-- Lines 72-118 of the source, `get_file_content`: no `try/except` at this
level — remote errors propagate raw; a list result raises
`ValueError("Cannot get directory content")` before any decoding; otherwise
the decoded (or placeholder) string is wrapped with the requested path, the
reported size and the fixed `"utf-8"` tag. -/
def get_file_content (client : GitHubClient) (owner repo file_path : String)
    (branch : Option String := none) : Except PyError FileContent := do
  let repo_obj ← client.github.get_repo (owner ++ "/" ++ repo)
  let fetch :=
    if pyTruthy branch then repo_obj.get_contents file_path branch
    else repo_obj.get_contents file_path none
  let file_content ← fetch
  match file_content with
  | .dir _ => .error (.valueError "Cannot get directory content")
  | .file fc => do
    let content_str ← decodeContentStr fc
    pure { path := file_path
           content := content_str
           size := fc.size
           encoding := "utf-8" }

/-- Lines 120-134 of the source, `test_connection`: any successful
`get_rate_limit()` answer yields `True` (both branches of the remaining-quota
test return `True`), and `except Exception` turns every failure into
`False`. -/
def test_connection (client : GitHubClient) : Bool :=
  match client.github.get_rate_limit with
  | .ok rate_limit => if rate_limit.core.remaining > 0 then true else true
  | .error _ => false

/-- Lines 136-158 of the source, `get_repository_info`: field-for-field
mapping; each timestamp is rendered with `isoformat()` when the attribute is
truthy (a datetime is always truthy, so: non-`None`) and `None` otherwise;
`topics` falls back to `[]` when `hasattr(repo_obj, "topics")` fails.
Remote errors propagate raw. -/
def get_repository_info (client : GitHubClient) (owner repo : String) :
    Except PyError RepositoryInfo := do
  let repo_obj ← client.github.get_repo (owner ++ "/" ++ repo)
  pure { name := repo_obj.name
         full_name := repo_obj.full_name
         description := repo_obj.description
         owner := repo_obj.owner.login
         private_ := repo_obj.private_
         fork := repo_obj.fork
         created_at :=
           match repo_obj.created_at with
           | some d => some d.isoformat
           | none => none
         updated_at :=
           match repo_obj.updated_at with
           | some d => some d.isoformat
           | none => none
         pushed_at :=
           match repo_obj.pushed_at with
           | some d => some d.isoformat
           | none => none
         size := repo_obj.size
         stargazers_count := repo_obj.stargazers_count
         watchers_count := repo_obj.watchers_count
         forks_count := repo_obj.forks_count
         open_issues_count := repo_obj.open_issues_count
         default_branch := repo_obj.default_branch
         language := repo_obj.language
         topics :=
           match repo_obj.topics with
           | some ts => ts
           | none => [] }

/-- Lines 167-173 of the source: augment the raw query with a scope
qualifier.  Python truthiness governs the branches: an owner or repo that is
`None` OR the empty string does not count as given. -/
def build_search_query (query : String) (owner repo : Option String) :
    String :=
  if pyTruthy owner && pyTruthy repo then
    query ++ " repo:" ++ owner.getD "" ++ "/" ++ repo.getD ""
  else if pyTruthy owner then
    query ++ " user:" ++ owner.getD ""
  else
    query

/-- Line 181-189 of the source: shape one search result;  `score` and `size`
are taken when the attribute exists, else `None`; `language` likewise, with
the present attribute itself nullable. -/
def formatSearchResult (result : SearchItemObj) : SearchResult :=
  { name := result.name
    path := result.path
    repository := result.repository.full_name
    url := result.html_url
    score := result.score
    size := result.size
    language :=
      match result.repository.language with
      | some l => l
      | none => none }

/-- Lines 160-191 of the source, `search_code`: build the scoped query, run
the remote search, and format only `results[:50]`, in the order the service
returned them. -/
def search_code (client : GitHubClient) (query : String)
    (owner : Option String := none) (repo : Option String := none) :
    List SearchResult :=
  let search_query := build_search_query query owner repo
  let results := client.github.search_code search_query
  (results.take 50).map formatSearchResult

/-- Repository stub whose content lookups run `f`; metadata fields mirror the
"octo/hello-world" example of the spec. -/
def stubRepoObj (f : String → Option String → Except PyError ContentsResult) :
    RepoObj :=
  { get_contents := f
    name := "hello-world"
    full_name := "octo/hello-world"
    description := none
    owner := { login := "octo" }
    private_ := false
    fork := false
    created_at := none
    updated_at := none
    pushed_at := none
    size := 7
    stargazers_count := 3
    watchers_count := 3
    forks_count := 1
    open_issues_count := 0
    default_branch := "main"
    language := some "Python"
    topics := none }

/-- Client whose repository lookup always yields `ro`. -/
def stubClient (ro : Except PyError RepoObj) : GitHubClient :=
  { token := none
    github :=
      { get_repo := fun _ => ro
        search_code := fun _ => []
        get_rate_limit := .ok { core := { remaining := 42 } } } }

/-- Client whose content lookups always yield `res`. -/
def contentsClient (res : Except PyError ContentsResult) : GitHubClient :=
  stubClient (.ok (stubRepoObj (fun _ _ => res)))

/-- Client with a fixed rate-limit answer and no other remote behaviour. -/
def rateClient (r : Except PyError RateLimitObj) : GitHubClient :=
  { token := none
    github :=
      { get_repo := fun _ => .error (.exception "unused")
        search_code := fun _ => []
        get_rate_limit := r } }

/-- Client whose code search always yields `items`, whatever the query. -/
def searchClient (items : List SearchItemObj) : GitHubClient :=
  { token := none
    github :=
      { get_repo := fun _ => .error (.exception "unused")
        search_code := fun _ => items
        get_rate_limit := .ok { core := { remaining := 1 } } } }

/-- A symlink entry as the GitHub contents API reports it. -/
def symlinkItem : ContentFileObj :=
  { name := "link", path := "link", type := "symlink", size := 5
    decoded_content := none, content := none }

/-- A regular file entry inside a directory listing. -/
def readmeItem : ContentFileObj :=
  { name := "README.md", path := "README.md", type := "file", size := 42
    decoded_content := some (some [104, 105]), content := none }

/-- A file object carrying already-decoded bytes that are not valid UTF-8. -/
def binDecodedFile : ContentFileObj :=
  { name := "data.bin", path := "data.bin", type := "file", size := 1
    decoded_content := some (some [255]), content := none }

/-- A file object carrying only base64 transport content whose bytes are not
valid UTF-8 (`"/w=="` decodes to the lone byte 0xFF). -/
def binB64File : ContentFileObj :=
  { name := "data.bin", path := "data.bin", type := "file", size := 1
    decoded_content := none, content := some (some "/w==") }

/-- The per-entry invariant claimed by the spec for directory listings:
size present exactly for kind "file", absent exactly for kind "dir". -/
def sizeIffFileKind (l : DirectoryListing) : Prop :=
  ∀ e ∈ l.items,
    (e.size.isSome ↔ e.type = "file") ∧ (e.size = none ↔ e.type = "dir")

/-- C3: a path resolving to a directory makes `get_file_content` fail with
`ValueError`, whose message contains the word "directory", before any
decoding is attempted (the error does not depend on any decode attribute of
any file object). -/
theorem get_file_content_directory_valueerror
    (client : GitHubClient) (owner repo file_path : String)
    (branch : Option String) (ro : RepoObj) (items : List ContentFileObj)
    (hrepo : client.github.get_repo (owner ++ "/" ++ repo) = .ok ro)
    (hcontents : (if pyTruthy branch then ro.get_contents file_path branch
                  else ro.get_contents file_path none) = .ok (.dir items)) :
    get_file_content client owner repo file_path branch
      = .error (.valueError "Cannot get directory content")
    ∧ ∃ pre post, "Cannot get directory content" = pre ++ "directory" ++ post := by
  constructor
  · simp only [get_file_content, hrepo, exceptOkBind, hcontents]
  · exact ⟨"Cannot get ", " content", by decide⟩

/-- C3 witness: concrete run against a stubbed directory. -/
theorem get_file_content_directory_valueerror_witness :
    get_file_content (contentsClient (.ok (.dir []))) "octo" "hello-world"
        "src" none
      = .error (.valueError "Cannot get directory content")
    ∧ ∃ pre post, "Cannot get directory content" = pre ++ "directory" ++ post :=
  get_file_content_directory_valueerror
    (contentsClient (.ok (.dir []))) "octo" "hello-world" "src" none
    (stubRepoObj (fun _ _ => .ok (.dir []))) [] rfl rfl

/-- C7 counterexample: a directory whose single child is a symlink yields an
entry with kind "file" and size absent, refuting "size present iff kind=file,
absent iff kind=dir". -/
theorem get_repository_structure_sizeIff_counterexample :
    get_repository_structure (contentsClient (.ok (.dir [symlinkItem])))
        "octo" "hello-world" "/" none
      = .ok { path := "/"
              items := [{ name := "link", path := "link"
                          type := "file", size := none }] }
    ∧ ¬ sizeIffFileKind
        { path := "/"
          items := [{ name := "link", path := "link"
                      type := "file", size := none }] } := by
  constructor
  · rfl
  · intro h
    have h1 :=
      (h { name := "link", path := "link", type := "file", size := none }
        (List.mem_singleton.mpr rfl)).1
    simp at h1

/-- C7 as amended: a directory with N children always yields exactly N
entries, and an entry's size is present exactly when the underlying remote
item's type is the string "file" (entries of any other remote type are
tagged "file" while dir alone is tagged "dir"). -/
theorem get_repository_structure_dir_listing
    (client : GitHubClient) (owner repo path : String)
    (branch : Option String) (ro : RepoObj) (items : List ContentFileObj)
    (hrepo : client.github.get_repo (owner ++ "/" ++ repo) = .ok ro)
    (hcontents : (if pyTruthy branch then ro.get_contents path branch
                  else ro.get_contents path none) = .ok (.dir items)) :
    get_repository_structure client owner repo path branch
      = .ok { path := path, items := items.map mkItemData }
    ∧ (items.map mkItemData).length = items.length
    ∧ ∀ it ∈ items,
        ((mkItemData it).size.isSome ↔ it.type = "file")
        ∧ (mkItemData it).type = (if it.type = "dir" then "dir" else "file") := by
  refine ⟨?_, by simp, ?_⟩
  · simp only [get_repository_structure, hrepo, exceptOkBind, hcontents]
    rfl
  · intro it _
    constructor
    · by_cases hf : it.type = "file" <;> simp [mkItemData, hf]
    · by_cases hf : it.type = "file" <;> simp [mkItemData, hf]

/-- C7 witness: a directory holding a symlink and a regular file. -/
theorem get_repository_structure_dir_listing_witness :
    get_repository_structure
        (contentsClient (.ok (.dir [symlinkItem, readmeItem])))
        "octo" "hello-world" "/" none
      = .ok { path := "/", items := [symlinkItem, readmeItem].map mkItemData }
    ∧ ([symlinkItem, readmeItem].map mkItemData).length
        = [symlinkItem, readmeItem].length
    ∧ ∀ it ∈ [symlinkItem, readmeItem],
        ((mkItemData it).size.isSome ↔ it.type = "file")
        ∧ (mkItemData it).type = (if it.type = "dir" then "dir" else "file") :=
  get_repository_structure_dir_listing
    (contentsClient (.ok (.dir [symlinkItem, readmeItem])))
    "octo" "hello-world" "/" none
    (stubRepoObj (fun _ _ => .ok (.dir [symlinkItem, readmeItem])))
    [symlinkItem, readmeItem] rfl rfl

/-- C10: an entry whose remote type is neither "file" nor "dir" (symlink,
submodule, ...) is reported with kind "file" and a null size. -/
theorem get_repository_structure_other_type_as_file
    (client : GitHubClient) (owner repo path : String)
    (branch : Option String) (ro : RepoObj) (items : List ContentFileObj)
    (it : ContentFileObj)
    (hrepo : client.github.get_repo (owner ++ "/" ++ repo) = .ok ro)
    (hcontents : (if pyTruthy branch then ro.get_contents path branch
                  else ro.get_contents path none) = .ok (.dir items))
    (hmem : it ∈ items) (hfile : it.type ≠ "file") (hdir : it.type ≠ "dir") :
    ∃ l, get_repository_structure client owner repo path branch = .ok l
      ∧ { name := it.name, path := it.path, type := "file", size := none }
          ∈ l.items := by
  refine ⟨{ path := path, items := items.map mkItemData }, ?_, ?_⟩
  · simp only [get_repository_structure, hrepo, exceptOkBind, hcontents]
    rfl
  · have hval : mkItemData it
        = { name := it.name, path := it.path, type := "file", size := none } := by
      simp [mkItemData, hfile, hdir]
    exact hval ▸ List.mem_map_of_mem mkItemData hmem

/-- C10 witness: the symlink entry of the concrete listing. -/
theorem get_repository_structure_other_type_as_file_witness :
    ∃ l, get_repository_structure (contentsClient (.ok (.dir [symlinkItem])))
        "octo" "hello-world" "/" none = .ok l
      ∧ { name := "link", path := "link", type := "file", size := none }
          ∈ l.items :=
  get_repository_structure_other_type_as_file
    (contentsClient (.ok (.dir [symlinkItem])))
    "octo" "hello-world" "/" none
    (stubRepoObj (fun _ _ => .ok (.dir [symlinkItem]))) [symlinkItem]
    symlinkItem rfl rfl (List.mem_singleton.mpr rfl)
    (by decide) (by decide)

/-- C8: a path resolving to a single file yields a listing carrying the
requested path and exactly one entry, of kind "file", whose size is the
file's reported byte size. -/
theorem get_repository_structure_single_file
    (client : GitHubClient) (owner repo path : String)
    (branch : Option String) (ro : RepoObj) (c : ContentFileObj)
    (hrepo : client.github.get_repo (owner ++ "/" ++ repo) = .ok ro)
    (hcontents : (if pyTruthy branch then ro.get_contents path branch
                  else ro.get_contents path none) = .ok (.file c)) :
    get_repository_structure client owner repo path branch
      = .ok { path := path
              items := [{ name := c.name, path := c.path
                          type := "file", size := some c.size }] } := by
  simp only [get_repository_structure, hrepo, exceptOkBind, hcontents]
  rfl

/-- C8 witness: the README example of the spec, 42 bytes. -/
theorem get_repository_structure_single_file_witness :
    get_repository_structure (contentsClient (.ok (.file readmeItem)))
        "octo" "hello-world" "/README.md" none
      = .ok { path := "/README.md"
              items := [{ name := "README.md", path := "README.md"
                          type := "file", size := some 42 }] } :=
  get_repository_structure_single_file
    (contentsClient (.ok (.file readmeItem)))
    "octo" "hello-world" "/README.md" none
    (stubRepoObj (fun _ _ => .ok (.file readmeItem))) readmeItem rfl rfl

/-- C1 counterexample: a file object carrying already-decoded bytes `[0xFF]`
(not valid UTF-8) makes `get_file_content` raise the decode exception instead
of substituting the placeholder, because only the base64 `elif` branch of the
source sits inside `try/except`. -/
theorem get_file_content_decoded_branch_raises :
    get_file_content (contentsClient (.ok (.file binDecodedFile)))
        "octo" "hello-world" "data.bin" none
      = .error (.unicodeDecodeError "utf-8 codec cannot decode bytes") := by
  rfl

/-- C1 as amended: with only base64 transport content, a failed
base64-then-UTF-8 interpretation degrades to the placeholder embedding the
byte size and never raises; but with an already-decoded bytes attribute,
invalid UTF-8 raises a decode exception. -/
theorem get_file_content_binary_handling
    (client : GitHubClient) (owner repo file_path : String)
    (branch : Option String) (ro : RepoObj) (fc : ContentFileObj)
    (hrepo : client.github.get_repo (owner ++ "/" ++ repo) = .ok ro)
    (hcontents : (if pyTruthy branch then ro.get_contents file_path branch
                  else ro.get_contents file_path none) = .ok (.file fc)) :
    (∀ c, fc.decoded_content = none → fc.content = some (some c) →
      b64decode c >>= utf8Decode = none →
      get_file_content client owner repo file_path branch
        = .ok { path := file_path, content := binaryPlaceholder fc.size
                size := fc.size, encoding := "utf-8" })
    ∧ (∀ bs, fc.decoded_content = some (some bs) → utf8Decode bs = none →
      get_file_content client owner repo file_path branch
        = .error (.unicodeDecodeError "utf-8 codec cannot decode bytes")) := by
  constructor
  · intro c h1 h2 h3
    simp only [get_file_content, hrepo, exceptOkBind, hcontents,
      decodeContentStr, h1, h2, h3]
    rfl
  · intro bs h1 h2
    simp only [get_file_content, hrepo, exceptOkBind, hcontents,
      decodeContentStr, h1, h2]
    rfl

/-- C1 witness: base64 content `"/w=="` (the single byte 0xFF) of a one-byte
file yields the placeholder record. -/
theorem get_file_content_binary_handling_witness :
    get_file_content (contentsClient (.ok (.file binB64File)))
        "octo" "hello-world" "data.bin" none
      = .ok { path := "data.bin", content := binaryPlaceholder 1
              size := 1, encoding := "utf-8" } :=
  (get_file_content_binary_handling
      (contentsClient (.ok (.file binB64File)))
      "octo" "hello-world" "data.bin" none
      (stubRepoObj (fun _ _ => .ok (.file binB64File))) binB64File
      rfl rfl).1 "/w==" rfl rfl (by decide)

/-- C2 counterexample: a transport-level failure (such as a connection error
of the underlying HTTP stack), which is not a `GithubException`, escapes the
`except GithubException` clause of `get_repository_structure` unwrapped: the
surfaced error is the raw network error, not the generic
"GitHub API error" condition. -/
theorem get_repository_structure_network_unwrapped :
    get_repository_structure
        (stubClient (.error (.networkError "Connection refused")))
        "octo" "hello-world" "/" none
      = .error (.networkError "Connection refused")
    ∧ ¬ ∃ m, get_repository_structure
        (stubClient (.error (.networkError "Connection refused")))
        "octo" "hello-world" "/" none
          = .error (.exception m) := by
  have hval : get_repository_structure
      (stubClient (.error (.networkError "Connection refused")))
      "octo" "hello-world" "/" none
    = .error (.networkError "Connection refused") := rfl
  refine ⟨hval, ?_⟩
  rintro ⟨m, hm⟩
  rw [hval] at hm
  exact PyError.noConfusion (Except.error.inj hm)

/-- C2 as amended: every `GithubException` raised by either remote call of
`get_repository_structure` (not-found, permission denied, rate-limited — any
kind whatsoever) is surfaced as the one generic plain exception
`"GitHub API error: " ++ msg` carrying the underlying message, with no
differentiation by kind; failures that are not `GithubException` propagate
unwrapped. -/
theorem get_repository_structure_wraps_githubException
    (client : GitHubClient) (owner repo path : String)
    (branch : Option String) (kind msg : String)
    (h : client.github.get_repo (owner ++ "/" ++ repo)
           = .error (.githubException kind msg)
       ∨ ∃ ro, client.github.get_repo (owner ++ "/" ++ repo) = .ok ro
           ∧ (if pyTruthy branch then ro.get_contents path branch
              else ro.get_contents path none)
             = .error (.githubException kind msg)) :
    get_repository_structure client owner repo path branch
      = .error (.exception ("GitHub API error: " ++ msg)) := by
  rcases h with h | ⟨ro, h1, h2⟩
  · simp only [get_repository_structure, h, exceptErrorBind]
  · simp only [get_repository_structure, h1, exceptOkBind, h2,
      exceptErrorBind]

/-- C2 witness: a not-found `GithubException` is wrapped into the generic
message. -/
theorem get_repository_structure_wraps_githubException_witness :
    get_repository_structure
        (stubClient (.error (.githubException "UnknownObjectException"
          "404 Not Found")))
        "octo" "hello-world" "/" none
      = .error (.exception ("GitHub API error: " ++ "404 Not Found")) :=
  get_repository_structure_wraps_githubException
    (stubClient (.error (.githubException "UnknownObjectException"
      "404 Not Found")))
    "octo" "hello-world" "/" none "UnknownObjectException" "404 Not Found"
    (Or.inl rfl)

/-- C4: `test_connection` answers `true` for every successful rate-limit
call — the remaining-quota test returns `true` in both branches — and
`false` for every failing one; being `Bool`-valued, it surfaces no error. -/
theorem test_connection_swallows_errors (client : GitHubClient) :
    (∀ rl, client.github.get_rate_limit = .ok rl
      → test_connection client = true)
    ∧ (∀ e, client.github.get_rate_limit = .error e
      → test_connection client = false) := by
  constructor
  · intro rl h
    simp [test_connection, h]
  · intro e h
    simp [test_connection, h]

/-- C4 witness: zero remaining quota still answers `true`; a failing call
answers `false`. -/
theorem test_connection_swallows_errors_witness :
    test_connection (rateClient (.ok { core := { remaining := 0 } })) = true
    ∧ test_connection (rateClient (.error (.networkError "unreachable")))
        = false :=
  ⟨(test_connection_swallows_errors
      (rateClient (.ok { core := { remaining := 0 } }))).1
      { core := { remaining := 0 } } rfl,
   (test_connection_swallows_errors
      (rateClient (.error (.networkError "unreachable")))).2
      (.networkError "unreachable") rfl⟩

/-- C5: `search_code` returns at most 50 results, and exactly the first
(at most) 50 results of the remote answer, formatted in the order the
service returned them. -/
theorem search_code_limit_and_order (client : GitHubClient) (query : String)
    (owner repo : Option String) :
    (search_code client query owner repo).length ≤ 50
    ∧ search_code client query owner repo
        = ((client.github.search_code
              (build_search_query query owner repo)).take 50).map
            formatSearchResult := by
  refine ⟨?_, rfl⟩
  simp only [search_code, List.length_map, List.length_take]
  omega

/-- C6: the query string handed to the remote search is the raw query plus a
repo-scope qualifier when owner and repo are both given (non-empty), plus a
user-scope qualifier when only the owner is given, and the bare query when
neither is given. -/
theorem search_code_query_scoping (query o r : String)
    (client : GitHubClient) (ho : o ≠ "") (hr : r ≠ "") :
    build_search_query query (some o) (some r)
        = query ++ " repo:" ++ o ++ "/" ++ r
    ∧ build_search_query query (some o) none = query ++ " user:" ++ o
    ∧ build_search_query query none none = query
    ∧ search_code client query (some o) (some r)
        = ((client.github.search_code
              (query ++ " repo:" ++ o ++ "/" ++ r)).take 50).map
            formatSearchResult := by
  have h1 : build_search_query query (some o) (some r)
      = query ++ " repo:" ++ o ++ "/" ++ r := by
    simp [build_search_query, pyTruthy, ho, hr]
  refine ⟨h1, ?_, ?_, ?_⟩
  · simp [build_search_query, pyTruthy, ho]
  · simp [build_search_query, pyTruthy]
  · simp only [search_code, h1]

/-- C6 witness: the "a"/"b" scoping example of the spec. -/
theorem search_code_query_scoping_witness :
    build_search_query "def foo" (some "a") (some "b")
        = "def foo" ++ " repo:" ++ "a" ++ "/" ++ "b"
    ∧ build_search_query "def foo" (some "a") none
        = "def foo" ++ " user:" ++ "a"
    ∧ build_search_query "def foo" none none = "def foo"
    ∧ search_code (searchClient []) "def foo" (some "a") (some "b")
        = (((searchClient []).github.search_code
              ("def foo" ++ " repo:" ++ "a" ++ "/" ++ "b")).take 50).map
            formatSearchResult :=
  search_code_query_scoping "def foo" "a" "b" (searchClient [])
    (by decide) (by decide)

/-- Repository stub with mixed timestamp presence and no topics support. -/
def infoRepoObj : RepoObj :=
  { stubRepoObj (fun _ _ => .error (.exception "unused")) with
      created_at := some { year := 2024, month := 1, day := 2
                           hour := 3, minute := 4, second := 5 }
      updated_at := none
      pushed_at := some { year := 2023, month := 12, day := 31
                          hour := 23, minute := 59, second := 59 } }

/-- C9: each timestamp of `get_repository_info` is the `isoformat` rendering
(shape `YYYY-MM-DDTHH:MM:SS`) of the remote datetime when present and null
otherwise, and `topics` defaults to the empty sequence when the remote
object lacks the attribute. -/
theorem get_repository_info_timestamps_topics
    (client : GitHubClient) (owner repo : String) (ro : RepoObj)
    (hrepo : client.github.get_repo (owner ++ "/" ++ repo) = .ok ro) :
    ∃ info, get_repository_info client owner repo = .ok info
      ∧ info.created_at = ro.created_at.map Datetime.isoformat
      ∧ info.updated_at = ro.updated_at.map Datetime.isoformat
      ∧ info.pushed_at = ro.pushed_at.map Datetime.isoformat
      ∧ (ro.topics = none → info.topics = [])
      ∧ ∀ d : Datetime, ∃ y mo da h mi s,
          Datetime.isoformat d
            = pad4 y ++ "-" ++ pad2 mo ++ "-" ++ pad2 da ++ "T"
              ++ pad2 h ++ ":" ++ pad2 mi ++ ":" ++ pad2 s := by
  simp only [get_repository_info, hrepo, exceptOkBind]
  refine ⟨_, rfl, ?_, ?_, ?_, ?_, ?_⟩
  · cases ro.created_at <;> rfl
  · cases ro.updated_at <;> rfl
  · cases ro.pushed_at <;> rfl
  · intro h
    rw [h]
  · intro d
    exact ⟨d.year, d.month, d.day, d.hour, d.minute, d.second, rfl⟩

/-- C9 witness: one present and one absent timestamp, topics unsupported. -/
theorem get_repository_info_timestamps_topics_witness :
    ∃ info, get_repository_info (stubClient (.ok infoRepoObj))
        "octo" "hello-world" = .ok info
      ∧ info.created_at = infoRepoObj.created_at.map Datetime.isoformat
      ∧ info.updated_at = infoRepoObj.updated_at.map Datetime.isoformat
      ∧ info.pushed_at = infoRepoObj.pushed_at.map Datetime.isoformat
      ∧ (infoRepoObj.topics = none → info.topics = [])
      ∧ ∀ d : Datetime, ∃ y mo da h mi s,
          Datetime.isoformat d
            = pad4 y ++ "-" ++ pad2 mo ++ "-" ++ pad2 da ++ "T"
              ++ pad2 h ++ ":" ++ pad2 mi ++ ":" ++ pad2 s :=
  get_repository_info_timestamps_topics (stubClient (.ok infoRepoObj))
    "octo" "hello-world" infoRepoObj rfl

/-- A representative code-search result object. -/
def sampleSearchItem : SearchItemObj :=
  { name := "main.py"
    path := "src/main.py"
    repository := { full_name := "octo/hello-world"
                    language := some (some "Python") }
    html_url := "https://example.com/main.py"
    score := none
    size := some 10 }

example : Datetime.isoformat
    { year := 2024, month := 1, day := 2, hour := 3, minute := 4, second := 5 }
    = "2024-01-02T03:04:05" := by decide

example : (search_code (searchClient (List.replicate 60 sampleSearchItem))
    "q" none none).length = 50 := by rfl

example : get_file_content (contentsClient (.ok (.file readmeItem)))
    "octo" "hello-world" "README.md" none
  = .ok { path := "README.md", content := "hi", size := 42
          encoding := "utf-8" } := by rfl
